import Mathlib

/-!
Verification of the article candidate scoring and selection pipeline of the
Obsidian News Digest repository (src/config.py and src/intelligent_selector.py).

Embedding conventions:
* Python floats (relevance scores, thresholds, the 1.2 boost factor) are
  modelled as exact rationals (ℚ).
* Python `Optional` values are `Option`; Python dictionaries with possibly
  missing keys are structures whose fields are `Option`-wrapped, `none`
  standing for an absent key (a raising `candidate["k"]` lookup) unless the
  code reads the key with `dict.get`, in which case a missing key and a `None`
  value are observationally identical and are both modelled as `none`.
* External capabilities (newspaper3k fetching, the LLM judgment call) are
  oracle parameters returning `Except Unit _`; `.error ()` models a raised
  exception inside the external call.
* In-place mutation of `ArticleCandidate` objects by `select_articles` is
  modelled positionally: the input list is enumerated and a separate function
  computes the post-call value of the object at each input position (objects
  are assumed distinct, which holds for the lists built by
  `evaluate_articles`).
-/

namespace NewsDigest

/-- Model of `NewsPreferences` (src/config.py): the user preference profile,
with the pydantic field defaults. -/
structure NewsPreferences where
  topics : List String := ["world news", "technology", "science"]
  keywords : List String := []
  max_age_hours : Int := 24
  preferred_sources : List String := []
  excluded_sources : List String := []
  include_opinion : Bool := true
  include_analysis : Bool := true
  geographic_focus : List String := ["global"]
  relevance_threshold : ℚ := 7/10
  max_articles : Nat := 10
deriving Repr

/-- Model of `ArticleCandidate` (src/config.py): a scored candidate article.
The pydantic range constraint on `relevance_score` (`ge=0.0, le=1.0`) is not a
type invariant here; it is enforced by `validateCandidate` below, mirroring
the fact that pydantic checks it at construction time. -/
structure ArticleCandidate where
  title : String
  url : String
  source : Option String := none
  published_date : Option Int := none
  snippet : Option String := none
  topics : List String := []
  relevance_score : ℚ := 0
  is_opinion : Option Bool := none
  is_analysis : Option Bool := none
  geographic_focus : Option String := none
  keywords_matched : List String := []
  evaluation_notes : Option String := none
  selected : Bool := false
deriving Repr, DecidableEq

/-- Model of `Config` (src/config.py) restricted to its declared fields, with
the pydantic defaults. -/
structure Config where
  api_key : String
  vault_path : String
  news_sources : List String := ["https://www.apnews.com/", "https://www.c-span.org/"]
  max_articles : Nat := 10
  output_folder : String := "Daily_news"
  model_name : String := "gpt-4.1-nano-2025-04-14"
  use_intelligent_selection : Bool := true
  news_preferences : NewsPreferences := {}
  max_search_queries : Nat := 3
  results_per_query : Nat := 5
deriving Repr

/-- Python membership test `source in sources` where `source` is an
`Optional[str]`: a `None` source is never a member of a list of strings. -/
def sourceIn (source : Option String) (sources : List String) : Bool :=
  match source with
  | some s => sources.contains s
  | none => false

/-- Pydantic construction of `ArticleCandidate` (src/config.py lines 120-125):
construction succeeds iff `relevance_score` lies in [0,1]; `none` models the
`ValidationError` raised otherwise.  All other field constraints of the model
are enforced by the Lean field types. -/
def validateCandidate (a : ArticleCandidate) : Option ArticleCandidate :=
  if 0 ≤ a.relevance_score ∧ a.relevance_score ≤ 1 then some a else none

/-- Model of `extract_domain` (src/intelligent_selector.py lines 25-44):
the netloc of the URL (the host part after `//`, up to the next `/`), with a
leading `www.` stripped; the empty string when the URL has no netloc.  The
function is total: the Python `except` branch returning `""` has no
counterpart because nothing here can raise. -/
def extract_domain (url : String) : String :=
  match url.splitOn "//" with
  | _ :: rest :: _ =>
    let domain := (rest.splitOn "/").headD ""
    if domain.startsWith "www." then domain.drop 4 else domain
  | _ => ""

/-! ### Selector (src/intelligent_selector.py, `select_articles`, lines 255-322) -/

/-- The preferred-source boost (lines 296-302): a candidate whose source is in
the preferred list has its relevance score multiplied by the fixed factor 1.2
and clamped at 1.0; other candidates are unchanged. -/
def boost (preferences : NewsPreferences) (c : ArticleCandidate) : ArticleCandidate :=
  if sourceIn c.source preferences.preferred_sources then
    { c with relevance_score := min (c.relevance_score * (12/10 : ℚ)) 1 }
  else c

/-- Filter step 1 (lines 271-275): drop candidates whose source domain is in
the excluded-source list. -/
def excludedFilter (preferences : NewsPreferences) (candidates : List ArticleCandidate) :
    List ArticleCandidate :=
  candidates.filter (fun c => !(sourceIn c.source preferences.excluded_sources))

/-- Filter step 2 (lines 277-281): keep candidates with
`relevance_score >= relevance_threshold`. -/
def thresholdFilter (preferences : NewsPreferences) (candidates : List ArticleCandidate) :
    List ArticleCandidate :=
  candidates.filter (fun c => decide (preferences.relevance_threshold ≤ c.relevance_score))

/-- Filter steps 3-4 (lines 283-294): when `include_opinion` is false keep the
candidates for which `not c.is_opinion` holds in Python, i.e. those whose
`is_opinion` is `None` or `False`; symmetrically for `include_analysis`. -/
def contentFilter (preferences : NewsPreferences) (candidates : List ArticleCandidate) :
    List ArticleCandidate :=
  let r1 := if preferences.include_opinion then candidates
    else candidates.filter (fun c => !(c.is_opinion.getD false))
  if preferences.include_analysis then r1
  else r1.filter (fun c => !(c.is_analysis.getD false))

/-- The three filter steps of `select_articles` in source order. -/
def filterStages (preferences : NewsPreferences) (candidates : List ArticleCandidate) :
    List ArticleCandidate :=
  contentFilter preferences (thresholdFilter preferences (excludedFilter preferences candidates))

/-- The descending comparison handed to the sort (lines 304-309):
`sorted(candidates, key=lambda x: x.relevance_score, reverse=True)` is the
stable sort placing higher scores first; `List.mergeSort` with this total
comparison computes exactly that list. -/
def scoreDesc (a b : ArticleCandidate) : Bool :=
  decide (b.relevance_score ≤ a.relevance_score)

/-- Model of `select_articles` (lines 255-322): filter, boost, stable-sort
descending, truncate to `max_articles`, and mark the returned candidates
selected.  This is the list the Python function returns. -/
def select_articles (candidates : List ArticleCandidate) (config : Config) :
    List ArticleCandidate :=
  let preferences := config.news_preferences
  let sorted_candidates :=
    ((filterStages preferences candidates).map (boost preferences)).mergeSort scoreDesc
  (sorted_candidates.take preferences.max_articles).map (fun c => { c with selected := true })

/-- The conjunction of the three filter steps as a single predicate. -/
def selectorPasses (preferences : NewsPreferences) (c : ArticleCandidate) : Bool :=
  !(sourceIn c.source preferences.excluded_sources) &&
    decide (preferences.relevance_threshold ≤ c.relevance_score) &&
    (preferences.include_opinion || !(c.is_opinion.getD false)) &&
    (preferences.include_analysis || !(c.is_analysis.getD false))

/-- The descending comparison on index-tagged candidates; the index plays no
part in the comparison, exactly as in the Python `key=lambda x:
x.relevance_score`. -/
def scoreDescP (a b : Nat × ArticleCandidate) : Bool :=
  decide (b.2.relevance_score ≤ a.2.relevance_score)

/-- The three filter steps of `select_articles`, applied to index-tagged
candidates (the index stands for Python object identity and plays no part in
any test). -/
def pairsFilterStages (preferences : NewsPreferences)
    (pcs : List (Nat × ArticleCandidate)) : List (Nat × ArticleCandidate) :=
  let filtered := pcs.filter (fun p => !(sourceIn p.2.source preferences.excluded_sources))
  let relevant := filtered.filter
    (fun p => decide (preferences.relevance_threshold ≤ p.2.relevance_score))
  let r2 := if preferences.include_opinion then relevant
    else relevant.filter (fun p => !(p.2.is_opinion.getD false))
  if preferences.include_analysis then r2
  else r2.filter (fun p => !(p.2.is_analysis.getD false))

/-- The boost step on index-tagged candidates. -/
def pairsBoosted (preferences : NewsPreferences)
    (pcs : List (Nat × ArticleCandidate)) : List (Nat × ArticleCandidate) :=
  (pairsFilterStages preferences pcs).map (fun p => (p.1, boost preferences p.2))

/-- The sort step on index-tagged candidates. -/
def pairsSorted (preferences : NewsPreferences)
    (pcs : List (Nat × ArticleCandidate)) : List (Nat × ArticleCandidate) :=
  (pairsBoosted preferences pcs).mergeSort scoreDescP

/-- The `select_articles` pipeline instrumented with input positions: the
returned list together with the input position of each returned object. -/
def selectorPairs (preferences : NewsPreferences)
    (pcs : List (Nat × ArticleCandidate)) : List (Nat × ArticleCandidate) :=
  ((pairsSorted preferences pcs).take preferences.max_articles).map
    (fun p => (p.1, { p.2 with selected := true }))

/-- The instrumented pipeline run on the enumerated input list. -/
def selectorRun (preferences : NewsPreferences) (candidates : List ArticleCandidate) :
    List (Nat × ArticleCandidate) :=
  selectorPairs preferences candidates.enum

/-- Input positions of the candidates returned by `select_articles`. -/
def selectedIdx (preferences : NewsPreferences) (candidates : List ArticleCandidate) :
    List Nat :=
  (selectorRun preferences candidates).map Prod.fst

/-- Post-call value of the input object of `select_articles` found at tagged
position `p`: an object that was returned has been boosted and marked
selected; an object that passed every filter but was dropped by the
truncation has been boosted (and only that); any other object is untouched. -/
def finalValue (preferences : NewsPreferences) (candidates : List ArticleCandidate)
    (p : Nat × ArticleCandidate) : ArticleCandidate :=
  if (selectedIdx preferences candidates).contains p.1 then
    { boost preferences p.2 with selected := true }
  else if selectorPasses preferences p.2 then boost preferences p.2
  else p.2

/-- Post-call value of each input object of `select_articles`, in input
order. -/
def selectorFinal (preferences : NewsPreferences) (candidates : List ArticleCandidate) :
    List ArticleCandidate :=
  candidates.enum.map (finalValue preferences candidates)

/-! ### Discovery (src/intelligent_selector.py, `discover_articles`, lines 47-132) -/

/-- Metadata produced by `Article(url).download(); article.parse()` in
newspaper3k: the title (possibly `None`), body text (possibly `None`), and
publish date. -/
structure ArticleMeta where
  title : Option String := none
  text : Option String := none
  publish_date : Option Int := none
deriving Repr

/-- External newspaper3k capabilities used by Discovery:
`article_urls s` models `build(s).article_urls()` (the per-source link
listing), `fetch u` models constructing, downloading and parsing `Article(u)`.
An `.error ()` result models an exception raised by the external call. -/
structure NewsOracle where
  article_urls : String → Except Unit (List String)
  fetch : String → Except Unit ArticleMeta

/-- A candidate dictionary, as built by Discovery and consumed by the
Evaluator.  A field holding `none` models a missing key for the keys the
Evaluator reads with a raising subscript (`title`, `url`, `source`); for
`published_date` and `snippet`, which the Evaluator reads with `dict.get`, a
missing key and a `None` value are conflated into `none`.  The `source` value
itself is an `Optional[str]` in Python, hence the nested `Option`. -/
structure CandidateDict where
  title : Option String := none
  url : Option String := none
  source : Option (Option String) := none
  published_date : Option Int := none
  snippet : Option String := none
  original_source : Option String := none
deriving Repr, DecidableEq

/-- Processing of one link of one source (lines 82-121): fetch and parse the
article; on any exception, or when the parsed title is falsy (missing or
empty), the link yields no candidate; otherwise build the candidate
dictionary, with the snippet taken from the first 200 characters of the body
text when that text is non-falsy. -/
def discoverLink (oracle : NewsOracle) (source_url article_url : String) :
    Option CandidateDict :=
  match oracle.fetch article_url with
  | .error _ => none
  | .ok meta =>
    match meta.title with
    | none => none
    | some title =>
      if title = "" then none
      else
        let source_domain := extract_domain article_url
        let snippet : Option String :=
          match meta.text with
          | some t => if t = "" then none else some (t.take 200)
          | none => none
        some { title := some title, url := some article_url,
               source := some (some source_domain),
               published_date := meta.publish_date, snippet := snippet,
               original_source := some source_url }

/-- The per-source link loop (lines 81-121): accumulate candidates from the
sampled links in order, skipping links that yield none, and stop as soon as
`max_articles_per_source` candidates have been collected. -/
def collectArticles (oracle : NewsOracle) (source_url : String)
    (max_articles_per_source : Nat) :
    List String → List CandidateDict → List CandidateDict
  | [], acc => acc
  | article_url :: rest, acc =>
    match discoverLink oracle source_url article_url with
    | none => collectArticles oracle source_url max_articles_per_source rest acc
    | some d =>
      let acc2 := acc ++ [d]
      if max_articles_per_source ≤ acc2.length then acc2
      else collectArticles oracle source_url max_articles_per_source rest acc2

/-- Processing of one source (lines 63-130): list the source's article links;
an exception anywhere while processing the source makes it contribute zero
candidates; otherwise scan a prefix of at most `2 * max_articles_per_source`
links. -/
def discoverSource (oracle : NewsOracle) (max_articles_per_source : Nat)
    (source_url : String) : List CandidateDict :=
  match oracle.article_urls source_url with
  | .error _ => []
  | .ok article_urls_list =>
    let sampled_urls :=
      article_urls_list.take (min (max_articles_per_source * 2) article_urls_list.length)
    collectArticles oracle source_url max_articles_per_source sampled_urls []

/-- Model of `discover_articles` (lines 47-132): the concatenation, in source
order, of each source's candidates.  The function is total: every failure of
the external capabilities is absorbed per link or per source. -/
def discover_articles (news_sources : List String) (max_articles_per_source : Nat)
    (oracle : NewsOracle) : List CandidateDict :=
  (news_sources.map (discoverSource oracle max_articles_per_source)).flatten

/-! ### Evaluator (src/intelligent_selector.py, `evaluate_articles`, lines 135-252) -/

/-- The candidate-specific part of the prompt handed to the judgment chain
(lines 216-225); the preference fields of the payload are constants of the
run and are not recorded. -/
structure JudgePayload where
  title : String
  source : Option String
  snippet : String
deriving Repr, DecidableEq

/-- The parsed JSON judgment, each field read with `dict.get` (lines 234-240):
`none` conflates a missing field and a `None` value, and stands for the
documented per-field default (empty list, 0.0 or null). -/
structure JudgeResponse where
  topics : Option (List String) := none
  relevance_score : Option ℚ := none
  is_opinion : Option Bool := none
  is_analysis : Option Bool := none
  geographic_focus : Option String := none
  keywords_matched : Option (List String) := none
  evaluation_notes : Option String := none
deriving Repr

/-- The external judgment capability, `chain.invoke` (line 216): `.error ()`
models both a raised invocation and a response that is not a JSON object. -/
def Judge : Type := JudgePayload → Except Unit JudgeResponse

/-- Outcome of the loop body for one candidate. -/
inductive EvalStep where
  | produced (a : ArticleCandidate)
  | skipped
  | raised
deriving Repr

/-- The `except` handler of the evaluation loop (lines 248-250): it logs
`candidate['title']`, so when the dictionary has no `title` key the handler
itself raises `KeyError` and the exception escapes `evaluate_articles`;
otherwise the candidate is skipped and the loop continues. -/
def evalRecover (c : CandidateDict) : EvalStep :=
  match c.title with
  | some _ => .skipped
  | none => .raised

/-- The effective snippet (lines 206-210): the stored snippet when truthy,
else the placeholder built from the title. -/
def effSnippet (c : CandidateDict) (title : String) : String :=
  match c.snippet with
  | some s => if s = "" then "[No preview for " ++ title ++ "]" else s
  | none => "[No preview for " ++ title ++ "]"

/-- The loop body of `evaluate_articles` for one candidate (lines 198-250),
together with the judgment call it issued, if any: read the source (a raising
lookup), skip excluded sources before any judgment call, read the title (a
raising lookup), build the effective snippet, invoke the judge, read the url
(a raising lookup), and construct the validated `ArticleCandidate`.  Every
exception inside the loop body is routed through `evalRecover`. -/
def evalCandidate (preferences : NewsPreferences) (judge : Judge) (c : CandidateDict) :
    EvalStep × Option JudgePayload :=
  match c.source with
  | none => (evalRecover c, none)
  | some source_domain =>
    if sourceIn source_domain preferences.excluded_sources then (.skipped, none)
    else
      match c.title with
      | none => (evalRecover c, none)
      | some title =>
        match judge ⟨title, source_domain, effSnippet c title⟩ with
        | .error _ => (evalRecover c, some ⟨title, source_domain, effSnippet c title⟩)
        | .ok resp =>
          match c.url with
          | none => (evalRecover c, some ⟨title, source_domain, effSnippet c title⟩)
          | some url =>
            match validateCandidate
                { title := title, url := url, source := source_domain,
                  published_date := c.published_date,
                  snippet := some (effSnippet c title),
                  topics := resp.topics.getD [],
                  relevance_score := resp.relevance_score.getD 0,
                  is_opinion := resp.is_opinion, is_analysis := resp.is_analysis,
                  geographic_focus := resp.geographic_focus,
                  keywords_matched := resp.keywords_matched.getD [],
                  evaluation_notes := resp.evaluation_notes,
                  selected := false } with
            | none => (evalRecover c, some ⟨title, source_domain, effSnippet c title⟩)
            | some article => (.produced article, some ⟨title, source_domain, effSnippet c title⟩)

/-- Result of a run of `evaluate_articles`: the returned list (or `.error ()`
when the function raised), together with the ordered list of judgment calls
made before returning or raising. -/
structure EvalRun where
  result : Except Unit (List ArticleCandidate)
  calls : List JudgePayload
deriving Repr

/-- Model of `evaluate_articles` (lines 135-252): process the candidates in
order; a produced article is appended to the output; a raise aborts the whole
function, discarding the articles produced so far. -/
def evaluate_articles (article_candidates : List CandidateDict) (config : Config)
    (judge : Judge) : EvalRun :=
  match article_candidates with
  | [] => { result := .ok [], calls := [] }
  | c :: cs =>
    match evalCandidate config.news_preferences judge c with
    | (.raised, p) => { result := .error (), calls := p.toList }
    | (.produced a, p) =>
      let rest := evaluate_articles cs config judge
      { result := rest.result.map (fun l => a :: l), calls := p.toList ++ rest.calls }
    | (.skipped, p) =>
      let rest := evaluate_articles cs config judge
      { result := rest.result, calls := p.toList ++ rest.calls }

/-! ### Orchestrator (src/intelligent_selector.py, `get_article_urls`, lines 325-365) -/

/-- Model of `get_article_urls` (lines 325-365): Discovery, then Evaluation,
then Selection, short-circuiting to `[]` when a stage yields nothing; the
`try/except` of the source catches any exception of the sequence (in this
model, only `evaluate_articles` can raise) and converts it to `[]`.  The
function is total: it never propagates an error to its caller. -/
def get_article_urls (config : Config) (oracle : NewsOracle) (judge : Judge) :
    List String :=
  let max_per_source := config.news_preferences.max_articles
  let article_candidates := discover_articles config.news_sources max_per_source oracle
  if article_candidates.isEmpty then []
  else
    match (evaluate_articles article_candidates config judge).result with
    | .error _ => []
    | .ok evaluated_candidates =>
      if evaluated_candidates.isEmpty then []
      else (select_articles evaluated_candidates config).map (fun a => a.url)

/-! ### Concrete inputs used by witnesses, demonstrations and counterexamples -/

/-- Preference profile excluding the domain bad.com and accepting any score. -/
def wPrefs : NewsPreferences := { excluded_sources := ["bad.com"], relevance_threshold := 0 }

/-- Configuration carrying `wPrefs`. -/
def wCfg : Config := { api_key := "k", vault_path := "v", news_preferences := wPrefs }

/-- A candidate from a non-excluded source, already carrying the selected
flag so that `select_articles` returns it unchanged. -/
def wCand : ArticleCandidate :=
  { title := "a", url := "ua", source := some "good.com", relevance_score := 1,
    selected := true }

/-- A well-formed candidate dictionary from a non-excluded source. -/
def wDict : CandidateDict :=
  { title := some "t", url := some "u", source := some (some "ok.com") }

/-- A judge answering every call with relevance score 0.8. -/
def wJudge : Judge := fun _ => .ok { relevance_score := some (8/10) }

/-- The judgment payload `evaluate_articles` builds for `wDict`. -/
def wPayload : JudgePayload :=
  { title := "t", source := some "ok.com", snippet := "[No preview for t]" }

/-- The scored candidate `evaluate_articles` produces from `wDict` under
`wJudge`. -/
def wArticle : ArticleCandidate :=
  { title := "t", url := "u", source := some "ok.com",
    snippet := some "[No preview for t]", relevance_score := 8/10 }

/-- A judge answering every call with the out-of-range relevance score 1.5. -/
def bigJudge : Judge := fun _ => .ok { relevance_score := some (3/2) }

/-- Preference profile with both content-type toggles off. -/
def noOpPrefs : NewsPreferences :=
  { include_opinion := false, include_analysis := false, relevance_threshold := 0 }

/-- Configuration carrying `noOpPrefs`. -/
def noOpCfg : Config := { api_key := "k", vault_path := "v", news_preferences := noOpPrefs }

/-- A candidate whose opinion and analysis flags are unknown (null). -/
def nullOpinionCand : ArticleCandidate :=
  { title := "n", url := "un", source := some "good.com", relevance_score := 1 }

/-- A candidate from a preferred source for the boost witness. -/
def prefCand : ArticleCandidate :=
  { title := "p", url := "up", source := some "pref.com", relevance_score := 1/2 }

/-- Preference profile preferring pref.com and accepting any score. -/
def prefPrefs : NewsPreferences :=
  { preferred_sources := ["pref.com"], relevance_threshold := 0 }

/-- Configuration carrying `prefPrefs`. -/
def prefCfg : Config := { api_key := "k", vault_path := "v", news_preferences := prefPrefs }

/-- An oracle whose every external call raises. -/
def failOracle : NewsOracle :=
  { article_urls := fun _ => .error (), fetch := fun _ => .error () }

/-- A configuration with no configured news sources. -/
def emptyCfg : Config := { api_key := "k", vault_path := "v", news_sources := [] }

/-- A candidate dictionary missing its `title` key. -/
def titlelessDict : CandidateDict :=
  { url := some "https://example.com/a", source := some (some "example.com") }

/-- A plain default configuration. -/
def plainCfg : Config := { api_key := "k", vault_path := "v" }

/-- Preference profile keeping one article, preferring p.com. -/
def framePrefs : NewsPreferences :=
  { preferred_sources := ["p.com"], relevance_threshold := 0, max_articles := 1 }

/-- Configuration carrying `framePrefs`. -/
def frameCfg : Config := { api_key := "k", vault_path := "v", news_preferences := framePrefs }

/-- The higher-scored candidate, from a non-preferred source. -/
def frameHigh : ArticleCandidate :=
  { title := "h", url := "uh", source := some "q.com", relevance_score := 9/10 }

/-- The lower-scored candidate, from the preferred source: it passes every
filter, gets boosted to 0.6, and is then dropped by the truncation. -/
def frameLow : ArticleCandidate :=
  { title := "l", url := "ul", source := some "p.com", relevance_score := 1/2 }

/-! ### Shared lemmas: stable descending sort by a rational key -/

/-- The sorted output of a descending stable sort restricted to one score
class equals the input restricted to that class: mergeSort never reorders
elements whose keys are equal. -/
lemma filter_key_mergeSort {α : Type} (key : α → ℚ) (l : List α) (k : ℚ) :
    (l.mergeSort (fun a b => decide (key b ≤ key a))).filter (fun x => decide (key x = k)) =
      l.filter (fun x => decide (key x = k)) := by
  set le : α → α → Bool := fun a b => decide (key b ≤ key a) with hle
  set p : α → Bool := fun x => decide (key x = k) with hp
  have trans : ∀ a b c : α, le a b → le b c → le a c := by
    intro a b c hab hbc
    simp only [hle, decide_eq_true_eq] at *
    exact hbc.trans hab
  have total : ∀ a b : α, le a b || le b a := by
    intro a b
    simp only [hle, Bool.or_eq_true, decide_eq_true_eq]
    exact le_total _ _
  have hpair : (l.filter p).Pairwise (fun a b => le a b) := by
    apply List.pairwise_of_forall_mem_list
    intro a ha b hb
    have ha2 : key a = k := by simpa [hp] using List.of_mem_filter ha
    have hb2 : key b = k := by simpa [hp] using List.of_mem_filter hb
    simp [hle, ha2, hb2]
  have hsub : List.Sublist (l.filter p) (l.mergeSort le) :=
    List.sublist_mergeSort trans total hpair (List.filter_sublist l)
  have hself : (l.filter p).filter p = l.filter p :=
    List.filter_eq_self.mpr (fun a ha => List.of_mem_filter ha)
  have h1 : List.Sublist (l.filter p) ((l.mergeSort le).filter p) := by
    have := List.Sublist.filter p hsub
    rwa [hself] at this
  have hperm : ((l.mergeSort le).filter p).Perm (l.filter p) :=
    (List.mergeSort_perm l le).filter p
  exact (h1.eq_of_length hperm.length_eq.symm).symm

/-- If every key class of a list is pairwise related by `r`, then any two
elements of the list with equal keys are related by `r` in list order. -/
lemma pairwise_of_filter_classes {α : Type} {key : α → ℚ} {r : α → α → Prop} :
    ∀ (l : List α), (∀ k, (l.filter (fun x => decide (key x = k))).Pairwise r) →
      l.Pairwise (fun a b => key a = key b → r a b)
  | [], _ => .nil
  | a :: l, h => by
    constructor
    · intro b hb hk
      have ha := h (key a)
      rw [List.filter_cons] at ha
      simp only [decide_eq_true_eq, if_pos rfl] at ha
      exact (List.pairwise_cons.mp ha).1 b
        (List.mem_filter.mpr ⟨hb, by simp [hk]⟩)
    · apply pairwise_of_filter_classes l
      intro k
      have hk := h k
      rw [List.filter_cons] at hk
      by_cases hak : key a = k
      · simp only [hak, decide_eq_true_eq, if_pos rfl] at hk
        exact (List.pairwise_cons.mp hk).2
      · simpa [hak] using hk

/-- Sortedness of the descending stable sort, as a pairwise inequality on
keys. -/
lemma pairwise_key_mergeSort {α : Type} (key : α → ℚ) (l : List α) :
    (l.mergeSort (fun a b => decide (key b ≤ key a))).Pairwise
      (fun a b => key b ≤ key a) := by
  set le : α → α → Bool := fun a b => decide (key b ≤ key a) with hle
  have trans : ∀ a b c : α, le a b → le b c → le a c := by
    intro a b c hab hbc
    simp only [hle, decide_eq_true_eq] at *
    exact hbc.trans hab
  have total : ∀ a b : α, le a b || le b a := by
    intro a b
    simp only [hle, Bool.or_eq_true, decide_eq_true_eq]
    exact le_total _ _
  have := List.sorted_mergeSort trans total l
  exact this.imp (by simp [hle])

/-- Members of an enumerated list are the list's entries at their own tag. -/
lemma mem_enum_eq {α : Type} {l : List α} {q : Nat × α} (hq : q ∈ l.enum) :
    ∃ h : q.1 < l.length, q.2 = l.get ⟨q.1, h⟩ := by
  rcases q with ⟨i, x⟩
  rw [List.mk_mem_enum_iff_getElem?] at hq
  rcases List.getElem?_eq_some.mp hq with ⟨h, hx⟩
  exact ⟨h, hx.symm⟩

/-- The tags of an enumerated list are strictly increasing. -/
lemma pairwise_fst_enum {α : Type} (l : List α) :
    l.enum.Pairwise (fun a b => a.1 < b.1) := by
  have h := List.pairwise_lt_range l.length
  rw [← List.enum_map_fst l, List.pairwise_map] at h
  exact h

/-! ### Shared lemmas: structure of the selector pipeline -/

lemma boost_title (preferences : NewsPreferences) (c : ArticleCandidate) :
    (boost preferences c).title = c.title := by unfold boost; split <;> rfl

lemma boost_url (preferences : NewsPreferences) (c : ArticleCandidate) :
    (boost preferences c).url = c.url := by unfold boost; split <;> rfl

lemma boost_source (preferences : NewsPreferences) (c : ArticleCandidate) :
    (boost preferences c).source = c.source := by unfold boost; split <;> rfl

lemma boost_published_date (preferences : NewsPreferences) (c : ArticleCandidate) :
    (boost preferences c).published_date = c.published_date := by unfold boost; split <;> rfl

lemma boost_snippet (preferences : NewsPreferences) (c : ArticleCandidate) :
    (boost preferences c).snippet = c.snippet := by unfold boost; split <;> rfl

lemma boost_topics (preferences : NewsPreferences) (c : ArticleCandidate) :
    (boost preferences c).topics = c.topics := by unfold boost; split <;> rfl

lemma boost_is_opinion (preferences : NewsPreferences) (c : ArticleCandidate) :
    (boost preferences c).is_opinion = c.is_opinion := by unfold boost; split <;> rfl

lemma boost_is_analysis (preferences : NewsPreferences) (c : ArticleCandidate) :
    (boost preferences c).is_analysis = c.is_analysis := by unfold boost; split <;> rfl

lemma boost_geographic_focus (preferences : NewsPreferences) (c : ArticleCandidate) :
    (boost preferences c).geographic_focus = c.geographic_focus := by unfold boost; split <;> rfl

lemma boost_keywords_matched (preferences : NewsPreferences) (c : ArticleCandidate) :
    (boost preferences c).keywords_matched = c.keywords_matched := by unfold boost; split <;> rfl

lemma boost_evaluation_notes (preferences : NewsPreferences) (c : ArticleCandidate) :
    (boost preferences c).evaluation_notes = c.evaluation_notes := by unfold boost; split <;> rfl

lemma boost_selected (preferences : NewsPreferences) (c : ArticleCandidate) :
    (boost preferences c).selected = c.selected := by unfold boost; split <;> rfl

lemma boost_score_change {preferences : NewsPreferences} {c : ArticleCandidate}
    (h : (boost preferences c).relevance_score ≠ c.relevance_score) :
    sourceIn c.source preferences.preferred_sources = true ∧
    (boost preferences c).relevance_score = min (c.relevance_score * (12/10 : ℚ)) 1 := by
  unfold boost at *
  by_cases hp : sourceIn c.source preferences.preferred_sources
  · simp [hp]
  · simp [hp] at h

lemma contentFilter_sublist (preferences : NewsPreferences)
    (candidates : List ArticleCandidate) :
    List.Sublist (contentFilter preferences candidates) candidates := by
  unfold contentFilter
  split
  · split
    · exact List.Sublist.refl _
    · exact List.filter_sublist _
  · split
    · exact List.filter_sublist _
    · exact (List.filter_sublist _).trans (List.filter_sublist _)

lemma filterStages_sublist (preferences : NewsPreferences)
    (candidates : List ArticleCandidate) :
    List.Sublist (filterStages preferences candidates) candidates :=
  ((contentFilter_sublist _ _).trans (List.filter_sublist _)).trans (List.filter_sublist _)

lemma mem_filterStages_not_excluded {preferences : NewsPreferences}
    {candidates : List ArticleCandidate} {c : ArticleCandidate}
    (hc : c ∈ filterStages preferences candidates) :
    sourceIn c.source preferences.excluded_sources = false := by
  have h1 : c ∈ thresholdFilter preferences (excludedFilter preferences candidates) :=
    (contentFilter_sublist _ _).subset hc
  have h2 : c ∈ excludedFilter preferences candidates :=
    (List.filter_sublist _).subset h1
  have := List.of_mem_filter h2
  simpa using this

lemma mem_contentFilter_opinion {preferences : NewsPreferences}
    {l : List ArticleCandidate} {c : ArticleCandidate}
    (ho : preferences.include_opinion = false) (hc : c ∈ contentFilter preferences l) :
    c.is_opinion.getD false = false := by
  unfold contentFilter at hc
  rw [ho] at hc
  simp only [Bool.false_eq_true, if_false] at hc
  have : c ∈ l.filter (fun c => !(c.is_opinion.getD false)) := by
    split at hc
    · exact hc
    · exact (List.filter_sublist _).subset hc
  simpa using List.of_mem_filter this

lemma mem_contentFilter_analysis {preferences : NewsPreferences}
    {l : List ArticleCandidate} {c : ArticleCandidate}
    (ha : preferences.include_analysis = false) (hc : c ∈ contentFilter preferences l) :
    c.is_analysis.getD false = false := by
  unfold contentFilter at hc
  rw [ha] at hc
  simp only [Bool.false_eq_true, if_false] at hc
  simpa using List.of_mem_filter hc

lemma mem_select_articles {candidates : List ArticleCandidate} {config : Config}
    {c : ArticleCandidate} (hc : c ∈ select_articles candidates config) :
    ∃ b, b ∈ filterStages config.news_preferences candidates ∧
      c = { boost config.news_preferences b with selected := true } := by
  unfold select_articles at hc
  simp only at hc
  rcases List.mem_map.mp hc with ⟨d, hd, rfl⟩
  have hd2 := List.mem_of_mem_take hd
  rw [List.mem_mergeSort] at hd2
  rcases List.mem_map.mp hd2 with ⟨b, hb, rfl⟩
  exact ⟨b, hb, rfl⟩

lemma pairsFilterStages_sublist (preferences : NewsPreferences)
    (pcs : List (Nat × ArticleCandidate)) :
    List.Sublist (pairsFilterStages preferences pcs) pcs := by
  unfold pairsFilterStages
  have base : List.Sublist
      ((pcs.filter (fun p => !(sourceIn p.2.source preferences.excluded_sources))).filter
        (fun p => decide (preferences.relevance_threshold ≤ p.2.relevance_score))) pcs :=
    (List.filter_sublist _).trans (List.filter_sublist _)
  split
  · split
    · exact base
    · exact (List.filter_sublist _).trans base
  · split
    · exact (List.filter_sublist _).trans base
    · exact ((List.filter_sublist _).trans (List.filter_sublist _)).trans base

lemma mem_pairsFilterStages_passes {preferences : NewsPreferences}
    {pcs : List (Nat × ArticleCandidate)} {p : Nat × ArticleCandidate}
    (hp : p ∈ pairsFilterStages preferences pcs) :
    selectorPasses preferences p.2 = true := by
  unfold pairsFilterStages at hp
  by_cases hio : preferences.include_opinion <;> by_cases hia : preferences.include_analysis <;>
    simp only [hio, hia, if_true, if_false, Bool.false_eq_true] at hp <;>
    simp only [List.mem_filter] at hp <;>
    simp [selectorPasses, hio, hia, hp]

lemma mem_selectorPairs {preferences : NewsPreferences}
    {pcs : List (Nat × ArticleCandidate)} {p : Nat × ArticleCandidate}
    (hp : p ∈ selectorPairs preferences pcs) :
    ∃ q, q ∈ pairsFilterStages preferences pcs ∧
      p = (q.1, { boost preferences q.2 with selected := true }) := by
  unfold selectorPairs at hp
  rcases List.mem_map.mp hp with ⟨d, hd, rfl⟩
  have hd2 := List.mem_of_mem_take hd
  rw [pairsSorted, List.mem_mergeSort, pairsBoosted] at hd2
  rcases List.mem_map.mp hd2 with ⟨q, hq, rfl⟩
  exact ⟨q, hq, rfl⟩

/-! ### Shared lemmas: structure of the evaluator -/

lemma validateCandidate_some {a b : ArticleCandidate} (h : validateCandidate a = some b) :
    b = a ∧ 0 ≤ a.relevance_score ∧ a.relevance_score ≤ 1 := by
  unfold validateCandidate at h
  split at h
  · rename_i hr
    cases h
    exact ⟨rfl, hr⟩
  · cases h

lemma evalRecover_ne_produced (c : CandidateDict) (a : ArticleCandidate) :
    evalRecover c ≠ .produced a := by
  unfold evalRecover
  split <;> simp

lemma evalCandidate_call {preferences : NewsPreferences} {judge : Judge}
    {c : CandidateDict} {p : JudgePayload}
    (h : (evalCandidate preferences judge c).2 = some p) :
    sourceIn p.source preferences.excluded_sources = false := by
  unfold evalCandidate at h
  split at h
  · simp at h
  · rename_i sd hsd
    split at h
    · simp at h
    · rename_i hex
      split at h
      · simp at h
      · rename_i t ht
        split at h
        · simp only [Option.some.injEq] at h
          subst h
          simpa using hex
        · split at h
          · simp only [Option.some.injEq] at h
            subst h
            simpa using hex
          · split at h <;>
            · simp only [Option.some.injEq] at h
              subst h
              simpa using hex

lemma evalCandidate_produced {preferences : NewsPreferences} {judge : Judge}
    {c : CandidateDict} {a : ArticleCandidate}
    (h : (evalCandidate preferences judge c).1 = .produced a) :
    sourceIn a.source preferences.excluded_sources = false ∧
    0 ≤ a.relevance_score ∧ a.relevance_score ≤ 1 := by
  unfold evalCandidate at h
  split at h
  · exact absurd h (evalRecover_ne_produced c a)
  · rename_i sd hsd
    split at h
    · simp at h
    · rename_i hex
      split at h
      · exact absurd h (evalRecover_ne_produced c a)
      · rename_i t ht
        split at h
        · exact absurd h (evalRecover_ne_produced c a)
        · split at h
          · exact absurd h (evalRecover_ne_produced c a)
          · split at h
            · exact absurd h (evalRecover_ne_produced c a)
            · rename_i article hv
              simp only [EvalStep.produced.injEq] at h
              rcases validateCandidate_some hv with ⟨rfl, hr⟩
              subst h
              exact ⟨by simpa using hex, hr⟩

lemma evaluate_calls_not_excluded (dicts : List CandidateDict) (config : Config)
    (judge : Judge) :
    ∀ p ∈ (evaluate_articles dicts config judge).calls,
      sourceIn p.source config.news_preferences.excluded_sources = false := by
  induction dicts with
  | nil => intro p hp; simp [evaluate_articles] at hp
  | cons c cs ih =>
    intro p hp
    unfold evaluate_articles at hp
    rcases he : evalCandidate config.news_preferences judge c with ⟨step, pay⟩
    rw [he] at hp
    have hpay : pay = some p → sourceIn p.source config.news_preferences.excluded_sources = false := by
      intro hps
      exact evalCandidate_call (by rw [he, hps])
    cases step <;> simp only [] at hp
    · rcases List.mem_append.mp hp with h1 | h2
      · exact hpay (by simpa using Option.mem_toList.mp h1)
      · exact ih p h2
    · rcases List.mem_append.mp hp with h1 | h2
      · exact hpay (by simpa using Option.mem_toList.mp h1)
      · exact ih p h2
    · exact hpay (by simpa using Option.mem_toList.mp hp)

lemma evaluate_ok_sound (dicts : List CandidateDict) (config : Config) (judge : Judge) :
    ∀ l, (evaluate_articles dicts config judge).result = .ok l →
      ∀ a ∈ l, sourceIn a.source config.news_preferences.excluded_sources = false ∧
        0 ≤ a.relevance_score ∧ a.relevance_score ≤ 1 := by
  induction dicts with
  | nil =>
    intro l hl a ha
    simp [evaluate_articles] at hl
    subst hl
    simp at ha
  | cons c cs ih =>
    intro l hl a ha
    unfold evaluate_articles at hl
    rcases he : evalCandidate config.news_preferences judge c with ⟨step, pay⟩
    rw [he] at hl
    cases step with
    | produced b =>
      simp only [] at hl
      rcases hr : (evaluate_articles cs config judge).result with e | l2
      · rw [hr] at hl; simp [Except.map] at hl
      · rw [hr] at hl
        simp only [Except.map, Except.ok.injEq] at hl
        subst hl
        rcases List.mem_cons.mp ha with ha | ha
        · subst ha
          exact evalCandidate_produced (by rw [he])
        · exact ih l2 hr a ha
    | skipped =>
      simp only [] at hl
      exact ih l hl a ha
    | raised => simp at hl

/-! ### Small option lemmas used by the content-type filter -/

lemma opt_getD_eq_beq (o : Option Bool) : (!(o.getD false)) = !(o == some true) := by
  rcases o with _ | b
  · rfl
  · cases b <;> rfl

lemma opt_getD_false_ne {o : Option Bool} (h : o.getD false = false) : o ≠ some true := by
  rcases o with _ | b
  · simp
  · cases b <;> simp_all

lemma boost_score_of_preferred {preferences : NewsPreferences} {c : ArticleCandidate}
    (hp : sourceIn c.source preferences.preferred_sources = true) :
    (boost preferences c).relevance_score = min (c.relevance_score * (12/10 : ℚ)) 1 := by
  unfold boost
  simp [hp]

/-! ### C1 -/

/-- C1: for every candidate list and configuration, `select_articles` never
returns a candidate whose source domain is in the excluded-source list,
whatever its score; and `evaluate_articles` drops excluded-source candidates
before any judgment call — no judgment call is ever issued for an excluded
source, and no returned scored candidate has an excluded source. -/
theorem excluded_source_filter_both_stages (config : Config)
    (candidates : List ArticleCandidate) (dicts : List CandidateDict) (judge : Judge) :
    (∀ c ∈ select_articles candidates config,
      sourceIn c.source config.news_preferences.excluded_sources = false) ∧
    (∀ p ∈ (evaluate_articles dicts config judge).calls,
      sourceIn p.source config.news_preferences.excluded_sources = false) ∧
    (∀ l, (evaluate_articles dicts config judge).result = .ok l →
      ∀ a ∈ l, sourceIn a.source config.news_preferences.excluded_sources = false) := by
  refine ⟨?_, ?_, ?_⟩
  · intro c hc
    rcases mem_select_articles hc with ⟨b, hb, rfl⟩
    have := mem_filterStages_not_excluded hb
    simpa [boost_source] using this
  · exact evaluate_calls_not_excluded dicts config judge
  · intro l hl a ha
    exact (evaluate_ok_sound dicts config judge l hl a ha).1

/-- Witness for C1 at concrete inputs: a returned candidate and an issued
judgment call, both with non-excluded sources. -/
theorem excluded_source_filter_both_stages_witness :
    sourceIn wCand.source wCfg.news_preferences.excluded_sources = false ∧
    sourceIn wPayload.source wCfg.news_preferences.excluded_sources = false :=
  ⟨(excluded_source_filter_both_stages wCfg [wCand] [wDict] wJudge).1 wCand
      (by simp [select_articles, filterStages, contentFilter, thresholdFilter,
            excludedFilter, boost, sourceIn, wCand, wCfg, wPrefs]),
   (excluded_source_filter_both_stages wCfg [wCand] [wDict] wJudge).2.1 wPayload
      (by simp [evaluate_articles, evalCandidate, effSnippet, validateCandidate,
            sourceIn, wDict, wCfg, wPrefs, wJudge, wPayload]; norm_num)⟩

/-! ### C3 -/

/-- C3: a candidate surviving the Selector's filter steps whose source is in
the preferred-source list has its relevance score replaced by exactly
`min(s * 1.2, 1.0)`; the boosted score never exceeds 1, and boosting an
already boosted candidate again still never exceeds 1. -/
theorem preferred_source_boost_clamped (config : Config)
    (candidates : List ArticleCandidate) (c : ArticleCandidate)
    (_hc : c ∈ filterStages config.news_preferences candidates)
    (hp : sourceIn c.source config.news_preferences.preferred_sources = true) :
    (boost config.news_preferences c).relevance_score =
      min (c.relevance_score * (12/10 : ℚ)) 1 ∧
    (boost config.news_preferences c).relevance_score ≤ 1 ∧
    (boost config.news_preferences (boost config.news_preferences c)).relevance_score ≤ 1 := by
  have h1 := boost_score_of_preferred hp
  have hp2 : sourceIn (boost config.news_preferences c).source
      config.news_preferences.preferred_sources = true := by
    rw [boost_source]
    exact hp
  refine ⟨h1, ?_, ?_⟩
  · rw [h1]
    exact min_le_right _ _
  · rw [boost_score_of_preferred hp2]
    exact min_le_right _ _

/-- Witness for C3: the filter-surviving candidate `prefCand` from the
preferred source pref.com. -/
theorem preferred_source_boost_clamped_witness :
    (boost prefCfg.news_preferences prefCand).relevance_score =
      min (prefCand.relevance_score * (12/10 : ℚ)) 1 :=
  (preferred_source_boost_clamped prefCfg [prefCand] prefCand
    (by simp [filterStages, contentFilter, thresholdFilter, excludedFilter,
          sourceIn, prefCand, prefCfg, prefPrefs])
    (by simp [sourceIn, prefCand, prefCfg, prefPrefs])).1

/-! ### C5 -/

/-- C5: with `include_opinion = false` the content-type filter drops exactly
the candidates whose `is_opinion` is explicitly true (a null flag is kept),
symmetrically for `include_analysis`; consequently no returned candidate has
an explicitly true flag when the corresponding toggle is off, while the
concrete run shows a null-flagged candidate being returned. -/
theorem opinion_analysis_null_not_dropped :
    (∀ (preferences : NewsPreferences) (l : List ArticleCandidate),
      preferences.include_opinion = false → preferences.include_analysis = false →
      contentFilter preferences l =
        l.filter (fun c => !(c.is_opinion == some true) && !(c.is_analysis == some true))) ∧
    (∀ (config : Config) (candidates : List ArticleCandidate),
      config.news_preferences.include_opinion = false →
      ∀ c ∈ select_articles candidates config, c.is_opinion ≠ some true) ∧
    (∀ (config : Config) (candidates : List ArticleCandidate),
      config.news_preferences.include_analysis = false →
      ∀ c ∈ select_articles candidates config, c.is_analysis ≠ some true) ∧
    select_articles [nullOpinionCand] noOpCfg = [{ nullOpinionCand with selected := true }] := by
  refine ⟨?_, ?_, ?_, ?_⟩
  · intro preferences l ho ha
    unfold contentFilter
    rw [ho, ha]
    simp only [Bool.false_eq_true, if_false]
    rw [List.filter_filter]
    apply List.filter_congr
    intro c _
    rw [opt_getD_eq_beq, opt_getD_eq_beq]
    exact Bool.and_comm _ _
  · intro config candidates ho c hc
    rcases mem_select_articles hc with ⟨b, hb, rfl⟩
    unfold filterStages at hb
    have h1 := mem_contentFilter_opinion ho hb
    have h2 := opt_getD_false_ne h1
    simpa [boost_is_opinion] using h2
  · intro config candidates ha c hc
    rcases mem_select_articles hc with ⟨b, hb, rfl⟩
    unfold filterStages at hb
    have h1 := mem_contentFilter_analysis ha hb
    have h2 := opt_getD_false_ne h1
    simpa [boost_is_analysis] using h2
  · simp [select_articles, filterStages, contentFilter, thresholdFilter,
      excludedFilter, boost, sourceIn, noOpCfg, noOpPrefs, nullOpinionCand]

/-- Witness for C5: a returned candidate under a configuration with both
toggles off has no explicitly true opinion flag. -/
theorem opinion_analysis_null_not_dropped_witness :
    ({ nullOpinionCand with selected := true } : ArticleCandidate).is_opinion ≠ some true :=
  opinion_analysis_null_not_dropped.2.1 noOpCfg [nullOpinionCand] rfl
    { nullOpinionCand with selected := true }
    (by rw [opinion_analysis_null_not_dropped.2.2.2]; simp)

/-! ### C10 -/

/-- C10: every scored candidate returned by `evaluate_articles` has a
relevance score in [0,1]; the model constructor rejects exactly the scores
outside [0,1]; and a judgment reporting the out-of-range score 1.5 makes the
construction fail so that the candidate is dropped, not clamped. -/
theorem relevance_score_range_enforced :
    (∀ (config : Config) (dicts : List CandidateDict) (judge : Judge)
      (l : List ArticleCandidate),
      (evaluate_articles dicts config judge).result = .ok l →
      ∀ a ∈ l, 0 ≤ a.relevance_score ∧ a.relevance_score ≤ 1) ∧
    (∀ a : ArticleCandidate, validateCandidate a = none ↔
      ¬(0 ≤ a.relevance_score ∧ a.relevance_score ≤ 1)) ∧
    (evaluate_articles [wDict] wCfg bigJudge).result = .ok [] := by
  refine ⟨?_, ?_, ?_⟩
  · intro config dicts judge l hl a ha
    exact (evaluate_ok_sound dicts config judge l hl a ha).2
  · intro a
    unfold validateCandidate
    split <;> simp_all
  · simp [evaluate_articles, evalCandidate, evalRecover, effSnippet, validateCandidate,
      sourceIn, wDict, wCfg, wPrefs, bigJudge]
    norm_num

/-- Witness for C10: the scored candidate produced from `wDict` under
`wJudge` has its score in range. -/
theorem relevance_score_range_enforced_witness :
    0 ≤ wArticle.relevance_score ∧ wArticle.relevance_score ≤ 1 :=
  relevance_score_range_enforced.1 wCfg [wDict] wJudge [wArticle]
    (by simp [evaluate_articles, evalCandidate, effSnippet, validateCandidate,
          sourceIn, wDict, wCfg, wPrefs, wJudge, wArticle, Except.map]; norm_num)
    wArticle (by simp)

/-! ### C6 -/

/-- C6: `get_article_urls` is total (it returns a plain list for every oracle
and judge, so it never propagates an exception); it returns the empty list
when Discovery finds nothing, when the Discovery-Evaluation-Selection
sequence raises, or when Evaluation scores nothing; and otherwise it returns
exactly the URL fields of the Selector's output, in the Selector's order. -/
theorem get_article_urls_total_contract (config : Config) (oracle : NewsOracle)
    (judge : Judge) :
    (discover_articles config.news_sources config.news_preferences.max_articles oracle = [] →
      get_article_urls config oracle judge = []) ∧
    ((evaluate_articles
        (discover_articles config.news_sources config.news_preferences.max_articles oracle)
        config judge).result = .error () →
      get_article_urls config oracle judge = []) ∧
    (∀ l, (evaluate_articles
        (discover_articles config.news_sources config.news_preferences.max_articles oracle)
        config judge).result = .ok l → l = [] →
      get_article_urls config oracle judge = []) ∧
    (∀ l, (evaluate_articles
        (discover_articles config.news_sources config.news_preferences.max_articles oracle)
        config judge).result = .ok l → l ≠ [] →
      get_article_urls config oracle judge =
        (select_articles l config).map (fun a => a.url)) := by
  refine ⟨?_, ?_, ?_, ?_⟩
  · intro h
    simp [get_article_urls, h]
  · intro h
    simp only [get_article_urls]
    split
    · rfl
    · rw [h]
  · intro l hl hnil
    subst hnil
    simp only [get_article_urls]
    split
    · rfl
    · rw [hl]
      simp
  · intro l hl hne
    simp only [get_article_urls]
    split
    · rename_i hemp
      rw [List.isEmpty_iff] at hemp
      rw [hemp] at hl
      simp [evaluate_articles] at hl
      exact absurd hl hne
    · rw [hl]
      simp [List.isEmpty_iff, hne]

/-- Witness for C6: with no configured sources Discovery finds nothing and
the orchestrator returns the empty list. -/
theorem get_article_urls_total_contract_witness :
    get_article_urls emptyCfg failOracle wJudge = [] :=
  (get_article_urls_total_contract emptyCfg failOracle wJudge).1
    (by simp [discover_articles, emptyCfg])

/-! ### C7 -/

/-- C7 (code bug): a candidate dictionary missing the `title` key is NOT
recovered locally: the `except` handler of `evaluate_articles` itself reads
`candidate['title']` while logging, so the KeyError escapes the function —
here, the run result is `.error ()` instead of a skip.  The judgment call for
the broken candidate was never made (`calls = []`). -/
theorem evaluate_articles_missing_title_raises :
    (evaluate_articles [titlelessDict] plainCfg wJudge).result = .error () ∧
    (evaluate_articles [titlelessDict] plainCfg wJudge).calls = [] := by
  constructor <;>
    simp [evaluate_articles, evalCandidate, evalRecover, titlelessDict, plainCfg,
      sourceIn]

/-! ### C9 -/

/-- C9: Discovery absorbs its failures: a source whose link listing raises
contributes zero candidates and does not abort the run (the remaining sources
are still processed), and a link whose metadata fetch raises, or whose parsed
title is falsy (missing or empty), is skipped while the scan of that source's
remaining links continues. -/
theorem discovery_failure_isolation (oracle : NewsOracle) (sources : List String)
    (max_articles_per_source : Nat) (src link : String) (links : List String)
    (acc : List CandidateDict) :
    (oracle.article_urls src = .error () →
      discoverSource oracle max_articles_per_source src = []) ∧
    (oracle.article_urls src = .error () →
      discover_articles (src :: sources) max_articles_per_source oracle =
        discover_articles sources max_articles_per_source oracle) ∧
    (oracle.fetch link = .error () →
      collectArticles oracle src max_articles_per_source (link :: links) acc =
        collectArticles oracle src max_articles_per_source links acc) ∧
    (∀ meta, oracle.fetch link = .ok meta → meta.title.getD "" = "" →
      collectArticles oracle src max_articles_per_source (link :: links) acc =
        collectArticles oracle src max_articles_per_source links acc) := by
  refine ⟨?_, ?_, ?_, ?_⟩
  · intro h
    simp [discoverSource, h]
  · intro h
    simp [discover_articles, discoverSource, h]
  · intro h
    simp [collectArticles, discoverLink, h]
  · intro meta hm ht
    rcases hmt : meta.title with _ | t
    · simp [collectArticles, discoverLink, hm, hmt]
    · rw [hmt] at ht
      simp only [Option.getD_some] at ht
      simp [collectArticles, discoverLink, hm, hmt, ht]

/-- Witness for C9 at a concrete failing oracle: the source bad yields
nothing, the run continues, and the failing link l1 is skipped. -/
theorem discovery_failure_isolation_witness :
    discoverSource failOracle 10 "bad" = [] ∧
    collectArticles failOracle "bad" 10 ["l1"] [] = collectArticles failOracle "bad" 10 [] [] :=
  ⟨(discovery_failure_isolation failOracle [] 10 "bad" "l1" [] []).1 rfl,
   (discovery_failure_isolation failOracle [] 10 "bad" "l1" [] []).2.2.1 rfl⟩

/-! ### C4 machinery -/

lemma pairsBoosted_pairwise_fst (preferences : NewsPreferences)
    (candidates : List ArticleCandidate) :
    (pairsBoosted preferences candidates.enum).Pairwise (fun a b => a.1 < b.1) := by
  have h1 : (pairsFilterStages preferences candidates.enum).Pairwise (fun a b => a.1 < b.1) :=
    List.Pairwise.sublist (pairsFilterStages_sublist _ _) (pairwise_fst_enum candidates)
  unfold pairsBoosted
  rw [List.pairwise_map]
  exact h1

lemma pairsSorted_filter_classes (preferences : NewsPreferences)
    (candidates : List ArticleCandidate) (k : ℚ) :
    (pairsSorted preferences candidates.enum).filter
        (fun p => decide (p.2.relevance_score = k)) =
      (pairsBoosted preferences candidates.enum).filter
        (fun p => decide (p.2.relevance_score = k)) :=
  filter_key_mergeSort (fun p : Nat × ArticleCandidate => p.2.relevance_score)
    (pairsBoosted preferences candidates.enum) k

/-! ### C4 -/

/-- C4: the list returned by `select_articles` is sorted by (possibly
boosted) relevance score in descending order, and — stated on the
position-instrumented run — any two returned candidates with equal scores
appear in increasing input-position order: the sort is stable, with no
secondary key. -/
theorem select_articles_sorted_and_stable (config : Config)
    (candidates : List ArticleCandidate) :
    List.Pairwise (fun a b : ArticleCandidate => b.relevance_score ≤ a.relevance_score)
      (select_articles candidates config) ∧
    List.Pairwise (fun a b : Nat × ArticleCandidate =>
        b.2.relevance_score ≤ a.2.relevance_score)
      (selectorRun config.news_preferences candidates) ∧
    List.Pairwise (fun a b : Nat × ArticleCandidate =>
        a.2.relevance_score = b.2.relevance_score → a.1 < b.1)
      (selectorRun config.news_preferences candidates) := by
  refine ⟨?_, ?_, ?_⟩
  · have hs := pairwise_key_mergeSort (fun c : ArticleCandidate => c.relevance_score)
      ((filterStages config.news_preferences candidates).map (boost config.news_preferences))
    simp only [select_articles]
    rw [List.pairwise_map]
    exact List.Pairwise.sublist (List.take_sublist _ _) hs
  · have hs := pairwise_key_mergeSort (fun p : Nat × ArticleCandidate => p.2.relevance_score)
      (pairsBoosted config.news_preferences candidates.enum)
    simp only [selectorRun, selectorPairs, pairsSorted]
    rw [List.pairwise_map]
    exact List.Pairwise.sublist (List.take_sublist _ _) hs
  · have hfst := pairsBoosted_pairwise_fst config.news_preferences candidates
    have hcls : ∀ k, ((pairsSorted config.news_preferences candidates.enum).filter
        (fun p => decide (p.2.relevance_score = k))).Pairwise (fun a b => a.1 < b.1) := by
      intro k
      rw [pairsSorted_filter_classes]
      exact List.Pairwise.sublist (List.filter_sublist _) hfst
    have htake : ∀ k, (((pairsSorted config.news_preferences candidates.enum).take
        config.news_preferences.max_articles).filter
        (fun p => decide (p.2.relevance_score = k))).Pairwise (fun a b => a.1 < b.1) := by
      intro k
      have hsub := List.Sublist.filter
        (fun p : Nat × ArticleCandidate => decide (p.2.relevance_score = k))
        (List.take_sublist config.news_preferences.max_articles
          (pairsSorted config.news_preferences candidates.enum))
      exact List.Pairwise.sublist hsub (hcls k)
    have hmain := pairwise_of_filter_classes
      ((pairsSorted config.news_preferences candidates.enum).take
        config.news_preferences.max_articles) htake
    simp only [selectorRun, selectorPairs]
    rw [List.pairwise_map]
    exact hmain

/-! ### C2 and C8 machinery: the post-call state of the input objects -/

lemma mem_of_mem_enum {α : Type} {l : List α} {p : Nat × α} (hp : p ∈ l.enum) :
    p.2 ∈ l := by
  rcases mem_enum_eq hp with ⟨hlt, heq⟩
  rw [heq]
  exact List.get_mem l p.1 hlt

lemma mem_zip_selectorFinal {preferences : NewsPreferences}
    {candidates : List ArticleCandidate} {pe : (Nat × ArticleCandidate) × ArticleCandidate}
    (hpe : pe ∈ candidates.enum.zip (selectorFinal preferences candidates)) :
    ∃ p ∈ candidates.enum, pe = (p, finalValue preferences candidates p) := by
  unfold selectorFinal at hpe
  have heq : candidates.enum.zip (candidates.enum.map (finalValue preferences candidates)) =
      candidates.enum.map (fun p => (p, finalValue preferences candidates p)) := by
    have := List.zip_map' id (finalValue preferences candidates) candidates.enum
    simpa using this
  rw [heq] at hpe
  rcases List.mem_map.mp hpe with ⟨p, hp, rfl⟩
  exact ⟨p, hp, rfl⟩

lemma not_mem_contains_false {l : List Nat} {a : Nat} (h : a ∉ l) :
    l.contains a = false := by
  rw [← Bool.not_eq_true]
  intro hc
  exact h (List.elem_iff.mp hc)

lemma selectedIdx_passes {preferences : NewsPreferences}
    {candidates : List ArticleCandidate} {i : Nat}
    (hi : i ∈ selectedIdx preferences candidates) :
    ∃ h : i < candidates.length,
      selectorPasses preferences (candidates.get ⟨i, h⟩) = true := by
  unfold selectedIdx selectorRun at hi
  rcases List.mem_map.mp hi with ⟨p, hp, rfl⟩
  rcases mem_selectorPairs hp with ⟨q, hq, rfl⟩
  have hqe : q ∈ candidates.enum := (pairsFilterStages_sublist _ _).subset hq
  rcases mem_enum_eq hqe with ⟨hlt, heq⟩
  have hpass := mem_pairsFilterStages_passes hq
  rw [heq] at hpass
  exact ⟨hlt, hpass⟩

/-! ### C2 -/

/-- C2: when every input candidate starts with `selected = false`,
`select_articles` returns at most `max_articles` candidates, each returned
candidate carries `selected = true`, and — on the position-instrumented final
state — every input object not in the returned list still carries
`selected = false` after the call. -/
theorem select_articles_count_and_flags (config : Config)
    (candidates : List ArticleCandidate)
    (h : ∀ c ∈ candidates, c.selected = false) :
    (select_articles candidates config).length ≤ config.news_preferences.max_articles ∧
    (∀ c ∈ select_articles candidates config, c.selected = true) ∧
    (∀ pe ∈ candidates.enum.zip (selectorFinal config.news_preferences candidates),
      pe.1.1 ∉ selectedIdx config.news_preferences candidates →
        pe.2.selected = false) := by
  refine ⟨?_, ?_, ?_⟩
  · simp only [select_articles]
    rw [List.length_map]
    exact List.length_take_le _ _
  · intro c hc
    rcases mem_select_articles hc with ⟨b, _hb, rfl⟩
    rfl
  · intro pe hpe hni
    rcases mem_zip_selectorFinal hpe with ⟨p, hp, rfl⟩
    have hcont := not_mem_contains_false hni
    have hmem := mem_of_mem_enum hp
    unfold finalValue
    simp only [hcont, Bool.false_eq_true, if_false]
    split
    · rw [boost_selected]
      exact h p.2 hmem
    · exact h p.2 hmem

/-- Witness for C2: a single unselected candidate under `wCfg`. -/
theorem select_articles_count_and_flags_witness :
    (select_articles [nullOpinionCand] wCfg).length ≤ wCfg.news_preferences.max_articles :=
  (select_articles_count_and_flags wCfg [nullOpinionCand]
    (by intro c hc; simp at hc; subst hc; rfl)).1

/-! ### C8 -/

/-- Counterexample to C8 as stated: under `framePrefs`, the input object at
position 1 (`frameLow`) is not in the returned list, yet its
relevance score has been mutated by the preferred-source boost (0.5 to 0.6),
so it is false that every non-returned input object is unchanged. -/
theorem select_articles_frame_counterexample :
    ¬ (∀ pe ∈ ([frameHigh, frameLow].enum.zip
          (selectorFinal framePrefs [frameHigh, frameLow])),
        pe.1.1 ∉ selectedIdx framePrefs [frameHigh, frameLow] → pe.2 = pe.1.2) := by
  intro hall
  have hsq : sourceIn (some "q.com") ["p.com"] = false := by decide
  have hsp : sourceIn (some "p.com") ["p.com"] = true := by decide
  have hse : ∀ x : Option String, sourceIn x [] = false := by
    intro x
    cases x <;> rfl
  have hbh : boost framePrefs frameHigh = frameHigh := by
    norm_num [boost, hsq, framePrefs, frameHigh]
  have hbl : boost framePrefs frameLow = { frameLow with relevance_score := 3/5 } := by
    norm_num [boost, hsp, framePrefs, frameLow, min_def]
  have hfs : pairsFilterStages framePrefs ([frameHigh, frameLow].enum) =
      [(0, frameHigh), (1, frameLow)] := by
    norm_num [pairsFilterStages, framePrefs, frameHigh, frameLow, List.enum,
      List.enumFrom, hse]
  have hb : pairsBoosted framePrefs ([frameHigh, frameLow].enum) =
      [(0, frameHigh), (1, { frameLow with relevance_score := 3/5 })] := by
    rw [pairsBoosted, hfs]
    simp [hbh, hbl]
  have hs : pairsSorted framePrefs ([frameHigh, frameLow].enum) =
      [(0, frameHigh), (1, { frameLow with relevance_score := 3/5 })] := by
    rw [pairsSorted, hb]
    norm_num [List.mergeSort, List.merge, scoreDescP, frameHigh, frameLow]
  have hsel : selectedIdx framePrefs [frameHigh, frameLow] = [0] := by
    rw [selectedIdx, selectorRun, selectorPairs, hs]
    norm_num [framePrefs]
  have hpass : selectorPasses framePrefs frameLow = true := by
    norm_num [selectorPasses, framePrefs, frameLow, hse]
  have hf0 : finalValue framePrefs [frameHigh, frameLow] (0, frameHigh) =
      { frameHigh with selected := true } := by
    rw [finalValue, hsel]
    norm_num [hbh]
  have hf1 : finalValue framePrefs [frameHigh, frameLow] (1, frameLow) =
      { frameLow with relevance_score := 3/5 } := by
    rw [finalValue, hsel]
    norm_num [hpass, hbl]
  have hfin : selectorFinal framePrefs [frameHigh, frameLow] =
      [{ frameHigh with selected := true }, { frameLow with relevance_score := 3/5 }] := by
    rw [selectorFinal]
    norm_num [List.enum, List.enumFrom, hf0, hf1]
  have hmem : (((1 : Nat), frameLow), { frameLow with relevance_score := (3/5 : ℚ) }) ∈
      ([frameHigh, frameLow].enum.zip
        (selectorFinal framePrefs [frameHigh, frameLow])) := by
    rw [hfin]
    norm_num [List.enum, List.enumFrom, List.zip, List.zipWith]
  have := hall _ hmem (by rw [hsel]; simp)
  simp only [ArticleCandidate.mk.injEq, frameLow] at this
  have hscore : (3/5 : ℚ) = 1/2 := this.2.2.2.2.2.2.1
  norm_num at hscore

/-- C8 (amended): `select_articles` only ever mutates the `selected` flag and
the relevance score of its input objects: every other field of every input
object is unchanged; the `selected` flag is set (to true) exactly on the
returned objects; and a score changes only on an object that passed every
filter and whose source is preferred, in which case it becomes exactly
`min(s * 1.2, 1)` — this includes boosted objects that the truncation then
drops, which is the respect in which the original claim fails. -/
theorem select_articles_frame (config : Config) (candidates : List ArticleCandidate) :
    ∀ pe ∈ candidates.enum.zip (selectorFinal config.news_preferences candidates),
      (pe.2.title = pe.1.2.title ∧ pe.2.url = pe.1.2.url ∧
       pe.2.source = pe.1.2.source ∧ pe.2.published_date = pe.1.2.published_date ∧
       pe.2.snippet = pe.1.2.snippet ∧ pe.2.topics = pe.1.2.topics ∧
       pe.2.is_opinion = pe.1.2.is_opinion ∧ pe.2.is_analysis = pe.1.2.is_analysis ∧
       pe.2.geographic_focus = pe.1.2.geographic_focus ∧
       pe.2.keywords_matched = pe.1.2.keywords_matched ∧
       pe.2.evaluation_notes = pe.1.2.evaluation_notes) ∧
      (pe.1.1 ∉ selectedIdx config.news_preferences candidates →
        pe.2.selected = pe.1.2.selected) ∧
      (pe.1.1 ∈ selectedIdx config.news_preferences candidates →
        pe.2.selected = true) ∧
      (pe.2.relevance_score ≠ pe.1.2.relevance_score →
        selectorPasses config.news_preferences pe.1.2 = true ∧
        sourceIn pe.1.2.source config.news_preferences.preferred_sources = true ∧
        pe.2.relevance_score = min (pe.1.2.relevance_score * (12/10 : ℚ)) 1) := by
  intro pe hpe
  rcases mem_zip_selectorFinal hpe with ⟨p, hp, rfl⟩
  rcases mem_enum_eq hp with ⟨hlt, hget⟩
  unfold finalValue
  split
  · rename_i hcont
    have hmem : p.1 ∈ selectedIdx config.news_preferences candidates :=
      List.elem_iff.mp hcont
    refine ⟨⟨boost_title _ _, boost_url _ _, boost_source _ _, boost_published_date _ _,
      boost_snippet _ _, boost_topics _ _, boost_is_opinion _ _, boost_is_analysis _ _,
      boost_geographic_focus _ _, boost_keywords_matched _ _, boost_evaluation_notes _ _⟩,
      ?_, ?_, ?_⟩
    · intro hni
      exact absurd hmem hni
    · intro _
      rfl
    · intro hneq
      have hneq2 : (boost config.news_preferences p.2).relevance_score ≠
          p.2.relevance_score := hneq
      rcases boost_score_change hneq2 with ⟨hpref, hform⟩
      rcases selectedIdx_passes hmem with ⟨hlt2, hpass⟩
      have : candidates.get ⟨p.1, hlt2⟩ = p.2 := by rw [← hget]
      rw [this] at hpass
      exact ⟨hpass, hpref, hform⟩
  · rename_i hcont
    have hnotmem : p.1 ∉ selectedIdx config.news_preferences candidates := by
      intro hmem
      exact hcont (List.elem_iff.mpr hmem)
    split
    · rename_i hpass
      refine ⟨⟨boost_title _ _, boost_url _ _, boost_source _ _, boost_published_date _ _,
        boost_snippet _ _, boost_topics _ _, boost_is_opinion _ _, boost_is_analysis _ _,
        boost_geographic_focus _ _, boost_keywords_matched _ _, boost_evaluation_notes _ _⟩,
        ?_, ?_, ?_⟩
      · intro _
        exact boost_selected _ _
      · intro hmem
        exact absurd hmem hnotmem
      · intro hneq
        rcases boost_score_change hneq with ⟨hpref, hform⟩
        exact ⟨hpass, hpref, hform⟩
    · refine ⟨⟨rfl, rfl, rfl, rfl, rfl, rfl, rfl, rfl, rfl, rfl, rfl⟩, ?_, ?_, ?_⟩
      · intro _
        rfl
      · intro hmem
        exact absurd hmem hnotmem
      · intro hneq
        exact absurd rfl hneq

/-- Witness for C8 (amended) at a concrete run: the non-returned boosted
object keeps every non-score field. -/
theorem select_articles_frame_witness :
    (boost framePrefs frameLow).title = frameLow.title :=
  (select_articles_frame frameCfg [frameHigh, frameLow]
    ((1, frameLow), boost framePrefs frameLow)
    (by
      show ((1, frameLow), boost framePrefs frameLow) ∈
        ([frameHigh, frameLow].enum.zip (selectorFinal framePrefs [frameHigh, frameLow]))
      have hsq : sourceIn (some "q.com") ["p.com"] = false := by decide
      have hsp : sourceIn (some "p.com") ["p.com"] = true := by decide
      have hse : ∀ x : Option String, sourceIn x [] = false := by
        intro x
        cases x <;> rfl
      have hbh : boost framePrefs frameHigh = frameHigh := by
        norm_num [boost, hsq, framePrefs, frameHigh]
      have hbl : boost framePrefs frameLow = { frameLow with relevance_score := 3/5 } := by
        norm_num [boost, hsp, framePrefs, frameLow, min_def]
      have hfs : pairsFilterStages framePrefs ([frameHigh, frameLow].enum) =
          [(0, frameHigh), (1, frameLow)] := by
        norm_num [pairsFilterStages, framePrefs, frameHigh, frameLow, List.enum,
          List.enumFrom, hse]
      have hb : pairsBoosted framePrefs ([frameHigh, frameLow].enum) =
          [(0, frameHigh), (1, { frameLow with relevance_score := 3/5 })] := by
        rw [pairsBoosted, hfs]
        simp [hbh, hbl]
      have hs : pairsSorted framePrefs ([frameHigh, frameLow].enum) =
          [(0, frameHigh), (1, { frameLow with relevance_score := 3/5 })] := by
        rw [pairsSorted, hb]
        norm_num [List.mergeSort, List.merge, scoreDescP, frameHigh, frameLow]
      have hsel : selectedIdx framePrefs [frameHigh, frameLow] = [0] := by
        rw [selectedIdx, selectorRun, selectorPairs, hs]
        norm_num [framePrefs]
      have hpass : selectorPasses framePrefs frameLow = true := by
        norm_num [selectorPasses, framePrefs, frameLow, hse]
      have hf0 : finalValue framePrefs [frameHigh, frameLow] (0, frameHigh) =
          { frameHigh with selected := true } := by
        rw [finalValue, hsel]
        norm_num [hbh]
      have hf1 : finalValue framePrefs [frameHigh, frameLow] (1, frameLow) =
          boost framePrefs frameLow := by
        rw [finalValue, hsel]
        norm_num [hpass]
      have hfin : selectorFinal framePrefs [frameHigh, frameLow] =
          [{ frameHigh with selected := true }, boost framePrefs frameLow] := by
        rw [selectorFinal]
        norm_num [List.enum, List.enumFrom, hf0, hf1]
      rw [hfin]
      norm_num [List.enum, List.enumFrom, List.zip, List.zipWith])).1.1

end NewsDigest
